import Mathlib

/-!
Shallow embedding of the oracle freshness and divergence evaluator of the
Bonfire frontend (the `Home` component of `src/App.tsx`): the `loadData`
refresh routine, the Hermes reference-price normalisation (`freshPrice`),
the render-time computations `diffRatio` and `minsSince`, and the two
classification functions `colorTime` and `colorDiff`.

JavaScript numbers are modelled as exact rationals; a JavaScript `NaN`
is modelled as `none` in `Option ℚ`, so a number that can never be `NaN`
is a plain `ℚ`. The spec names the classification buckets FRESH, AGING,
STALE (for `colorTime`) and ALIGNED, DIVERGENT (for `colorDiff`); in the
code these are exactly the colours "green", "goldenrod", "red" and
"green", "red" respectively.
-/

/-- Static configuration of one tracked oracle feed, an element of
`typedOracles` in `App.tsx` (loaded from `oracles.json`). -/
structure Oracle where
  assetPair : String
  wrapperAddress : String
  pythFeedId : String
deriving DecidableEq

/-- One row of the oracle table (`OracleRow` in `App.tsx`). The
`freshPrice` field can be `NaN` in JavaScript, hence `Option ℚ`. -/
structure OracleRow where
  oracle : Oracle
  lastOnChainPrice : ℚ
  freshPrice : Option ℚ
  lastUpdateTime : ℤ
  isUpdating : Bool
deriving DecidableEq

/-- Result of a successful `latestRoundData()` read on a wrapper
contract: the 5-tuple `(roundId, answer, startedAt, updatedAt,
answeredInRound)` of which `loadData` consumes `answer` and
`updatedAt`. -/
structure LatestRoundData where
  roundId : ℤ
  answer : ℤ
  startedAt : ℤ
  updatedAt : ℤ
  answeredInRound : ℤ
deriving DecidableEq

/-- One entry of the `parsed` array of a Hermes response. `price` models
the access `p.price?.price` (an absent field gives `none`) and `expo`
models `p.price?.expo`. -/
structure ParsedPriceEntry where
  price : Option String
  expo : Option ℤ
deriving DecidableEq

/-- Numeric value of a decimal digit character, `none` on any other
character. -/
def digitVal (c : Char) : Option ℕ :=
  if c.isDigit then some (c.toNat - 48) else none

/-- Value of a nonempty all-digit character list, `none` otherwise. -/
def parseDigits (cs : List Char) : Option ℕ :=
  if cs.isEmpty then none
  else
    cs.foldl
      (fun acc c =>
        match acc, digitVal c with
        | some a, some d => some (a * 10 + d)
        | _, _ => none)
      (some 0)

/-- Digit data of an unsigned decimal literal `digits`, `digits.digits`,
`digits.` or `.digits`, as the triple (integer part, fractional part,
number of fractional digits); `none` on any other character list. -/
def parseUnsigned (cs : List Char) : Option (ℕ × ℕ × ℕ) :=
  let intPart := cs.takeWhile (fun c => c ≠ '.')
  match cs.dropWhile (fun c => c ≠ '.') with
  | [] => (parseDigits intPart).map (fun n => (n, 0, 0))
  | _ :: frac =>
    if intPart.isEmpty && frac.isEmpty then none
    else
      match (if intPart.isEmpty then some 0 else parseDigits intPart),
          (if frac.isEmpty then some 0 else parseDigits frac) with
      | some ip, some fp => some (ip, fp, frac.length)
      | _, _ => none

/-- Rational value of the digit data of an unsigned decimal literal. -/
def decValue (v : ℕ × ℕ × ℕ) : ℚ :=
  (v.1 : ℚ) + (v.2.1 : ℚ) / 10 ^ v.2.2

/-- Models the JavaScript conversion `Number(s)` on the fragment of
decimal string literals: an optional sign followed by digits with an
optional fractional part. The empty string converts to `0` as in
JavaScript; every string outside this fragment (in particular any string
that is not a number at all) is mapped to `none`, modelling `NaN`. -/
def jsNumber (s : String) : Option ℚ :=
  match s.toList with
  | [] => some 0
  | '+' :: rest => (parseUnsigned rest).map decValue
  | '-' :: rest => (parseUnsigned rest).map (fun v => -(decValue v))
  | cs => (parseUnsigned cs).map decValue

/-- Normalisation of one parsed Hermes price entry, the statement
`freshPrice = Number(rawPriceStr) * 10 ** expo` of `loadData` with
`rawPriceStr = p.price?.price ?? "0"`; `none` models a `NaN` result
(`Number` of a malformed string is `NaN`, and `NaN * x` is `NaN`). -/
def freshPrice (rawPrice : Option String) (expo : ℤ) : Option ℚ :=
  (jsNumber (rawPrice.getD ("0"))).map (fun q => q * (10 : ℚ) ^ expo)

/-- Value stored in `hermesMap` for one feed id: `0` when the request
throws or the response is not OK (the `catch` branch of the first loop
of `loadData`), `0` when the `parsed` array is empty, and otherwise the
normalised first entry. A fetch outcome of `none` models a thrown or
non-OK request; `some parsedArr` models a response whose `parsed` field
is `parsedArr` (a missing `parsed` field is `data.parsed || []`, the
empty list). -/
def hermesEntry (fetch : String → Option (List ParsedPriceEntry))
    (feedId : String) : Option ℚ :=
  match fetch feedId with
  | none => some 0
  | some parsedArr =>
    match parsedArr with
    | [] => some 0
    | p :: _ => freshPrice p.price (p.expo.getD 0)

/-- First loop of `loadData`: builds the record `hermesMap` by iterating
the oracle list in order, one entry per feed id, overwriting on
duplicate feed ids. A result of `none` at a key models a key absent
from the record. -/
def buildHermesMap (fetch : String → Option (List ParsedPriceEntry))
    (oracles : List Oracle) : String → Option (Option ℚ) :=
  oracles.foldl
    (fun m o => fun k =>
      if k = o.pythFeedId then some (hermesEntry fetch o.pythFeedId) else m k)
    (fun _ => none)

/-- Body of the second loop of `loadData` for one oracle: on a
successful `latestRoundData` read the row is built from
`Number(answer) / 1e8`, `Number(updatedAt)` and the lookup
`hermesMap[o.pythFeedId]?.freshPrice ?? 0`; the `catch` branch builds
the all-zero sentinel row. Both branches set `isUpdating` to false. -/
def buildRow (hm : String → Option (Option ℚ))
    (readChain : String → Option LatestRoundData) (o : Oracle) : OracleRow :=
  match readChain o.wrapperAddress with
  | some r =>
    { oracle := o
      lastOnChainPrice := (r.answer : ℚ) / 10 ^ 8
      freshPrice := (hm o.pythFeedId).getD (some 0)
      lastUpdateTime := r.updatedAt
      isUpdating := false }
  | none =>
    { oracle := o
      lastOnChainPrice := 0
      freshPrice := some 0
      lastUpdateTime := 0
      isUpdating := false }

/-- The pure content of the `loadData` refresh routine of `App.tsx`: the
Hermes pass builds `hermesMap`, then the on-chain pass builds one
`OracleRow` per oracle, in input order. `fetch f = none` models a
thrown or non-OK Hermes request for feed id `f`; `readChain a = none`
models a thrown `readContract` call for wrapper address `a`. -/
def loadData (oracles : List Oracle)
    (fetch : String → Option (List ParsedPriceEntry))
    (readChain : String → Option LatestRoundData) : List OracleRow :=
  oracles.map (buildRow (buildHermesMap fetch oracles) readChain)

/-- Divergence ratio as computed in the render loop of `Home`:
`r.lastOnChainPrice === 0 ? 0 : (r.freshPrice - r.lastOnChainPrice) / r.lastOnChainPrice`.
A `none` fresh price models `NaN`, which propagates through the
arithmetic branch but not through the zero branch. -/
def diffRatio (lastOnChainPrice : ℚ) (fresh : Option ℚ) : Option ℚ :=
  if lastOnChainPrice = 0 then some 0
  else fresh.map (fun f => (f - lastOnChainPrice) / lastOnChainPrice)

/-- Minutes since the last on-chain update as computed in the render
loop, `(nowSec - r.lastUpdateTime) / 60`. -/
def minsSince (nowSec lastUpdateTime : ℤ) : ℚ :=
  ((nowSec - lastUpdateTime : ℤ) : ℚ) / 60

/-- Staleness colour (`colorTime` in `App.tsx`): "green" (FRESH) below
15 minutes, "goldenrod" (AGING) below 30, "red" (STALE) otherwise. -/
def colorTime (minutes : ℚ) : String :=
  if minutes < 15 then "green"
  else if minutes < 30 then "goldenrod"
  else "red"

/-- Divergence colour (`colorDiff` in `App.tsx`): "green" (ALIGNED) when
the absolute ratio is below 0.02, "red" (DIVERGENT) otherwise. -/
def colorDiff (diff : ℚ) : String :=
  if |diff| < 0.02 then "green" else "red"

/-! Helper lemmas about the embedding. -/

theorem buildRow_oracle (hm : String → Option (Option ℚ))
    (readChain : String → Option LatestRoundData) (o : Oracle) :
    (buildRow hm readChain o).oracle = o := by
  unfold buildRow
  cases readChain o.wrapperAddress <;> rfl

theorem buildRow_isUpdating (hm : String → Option (Option ℚ))
    (readChain : String → Option LatestRoundData) (o : Oracle) :
    (buildRow hm readChain o).isUpdating = false := by
  unfold buildRow
  cases readChain o.wrapperAddress <;> rfl

theorem hermesMap_lookup (fetch : String → Option (List ParsedPriceEntry))
    (oracles : List Oracle) (m : String → Option (Option ℚ)) (k : String) :
    oracles.foldl
      (fun m o => fun j =>
        if j = o.pythFeedId then some (hermesEntry fetch o.pythFeedId) else m j)
      m k =
    if k ∈ oracles.map Oracle.pythFeedId then some (hermesEntry fetch k)
    else m k := by
  induction oracles generalizing m with
  | nil => simp
  | cons o os ih =>
    rw [List.foldl_cons, ih]
    by_cases hk : k = o.pythFeedId
    · subst hk
      by_cases hmem : o.pythFeedId ∈ os.map Oracle.pythFeedId <;> simp [hmem]
    · by_cases hmem : k ∈ os.map Oracle.pythFeedId <;> simp [hmem, hk]

theorem buildHermesMap_mem (fetch : String → Option (List ParsedPriceEntry))
    (oracles : List Oracle) (o : Oracle) (ho : o ∈ oracles) :
    buildHermesMap fetch oracles o.pythFeedId =
      some (hermesEntry fetch o.pythFeedId) := by
  unfold buildHermesMap
  rw [hermesMap_lookup]
  rw [if_pos (List.mem_map.mpr ⟨o, ho, rfl⟩)]

theorem loadData_getElem? (oracles : List Oracle)
    (fetch : String → Option (List ParsedPriceEntry))
    (readChain : String → Option LatestRoundData) (i : ℕ) :
    (loadData oracles fetch readChain)[i]? =
      (oracles[i]?).map (buildRow (buildHermesMap fetch oracles) readChain) := by
  simp [loadData]

/-- C1: the divergence ratio of a row equals
(referencePrice - onChainPrice) / onChainPrice whenever the on-chain
price is nonzero, and equals exactly 0 whenever the on-chain price is 0,
for every fresh (reference) price value. -/
theorem C1_diffRatio_contract (last : ℚ) (fresh : Option ℚ) (ref : ℚ) :
    (last ≠ 0 → diffRatio last (some ref) = some ((ref - last) / last)) ∧
      (last = 0 → diffRatio last fresh = some 0) := by
  constructor
  · intro h
    simp [diffRatio, h]
  · intro h
    simp [diffRatio, h]

theorem C1_witness :
    diffRatio 2500 (some 2501) = some (1 / 2500) ∧
      diffRatio 0 (some 7) = some 0 := by
  constructor
  · rw [(C1_diffRatio_contract 2500 (some 7) 2501).1 (by norm_num)]
    norm_num
  · exact (C1_diffRatio_contract 0 (some 7) 2501).2 rfl

/-- C2: `colorTime` (FRESH = "green", AGING = "goldenrod",
STALE = "red") maps minutes < 15 to FRESH, 15 ≤ minutes < 30 to AGING
and 30 ≤ minutes to STALE; the boundary values 15 and 30 are exact, and
a negative input gets no special-casing, falling into FRESH. -/
theorem C2_colorTime_thresholds (m : ℚ) :
    (m < 15 → colorTime m = "green") ∧
      (15 ≤ m → m < 30 → colorTime m = "goldenrod") ∧
      (30 ≤ m → colorTime m = "red") ∧
      (m < 0 → colorTime m = "green") ∧
      colorTime 15 = "goldenrod" ∧ colorTime 30 = "red" := by
  unfold colorTime
  refine ⟨fun h => ?_, fun h1 h2 => ?_, fun h => ?_, fun h => ?_, ?_, ?_⟩
  · rw [if_pos h]
  · rw [if_neg (not_lt.mpr h1), if_pos h2]
  · rw [if_neg (not_lt.mpr (le_trans (by norm_num) h)),
      if_neg (not_lt.mpr h)]
  · rw [if_pos (lt_trans h (by norm_num))]
  · norm_num
  · norm_num

theorem C2_witness :
    colorTime 14.999 = "green" ∧ colorTime 15 = "goldenrod" ∧
      colorTime 29.999 = "goldenrod" ∧ colorTime 30 = "red" ∧
      colorTime (-5) = "green" :=
  ⟨(C2_colorTime_thresholds 14.999).1 (by norm_num),
    (C2_colorTime_thresholds 0).2.2.2.2.1,
    (C2_colorTime_thresholds 29.999).2.1 (by norm_num) (by norm_num),
    (C2_colorTime_thresholds 0).2.2.2.2.2,
    (C2_colorTime_thresholds (-5)).2.2.2.1 (by norm_num)⟩

/-- C3: `colorDiff` (ALIGNED = "green", DIVERGENT = "red") maps every
ratio of absolute value below 0.02 to ALIGNED and every other ratio to
DIVERGENT, is symmetric in the sign of the ratio, and the 0.02 boundary
is exact: 0.0199 is ALIGNED and 0.02 is DIVERGENT. -/
theorem C3_colorDiff_thresholds (x : ℚ) :
    (|x| < 0.02 → colorDiff x = "green") ∧
      (0.02 ≤ |x| → colorDiff x = "red") ∧
      colorDiff (-x) = colorDiff x ∧
      colorDiff 0.0199 = "green" ∧ colorDiff 0.02 = "red" := by
  unfold colorDiff
  refine ⟨fun h => if_pos h, fun h => if_neg (not_lt.mpr h), ?_, ?_, ?_⟩
  · rw [abs_neg]
  · have h1 : |(0.0199 : ℚ)| < 0.02 := by
      rw [abs_of_pos (by norm_num : (0:ℚ) < 0.0199)]
      norm_num
    rw [if_pos h1]
  · have h1 : ¬ |(0.02 : ℚ)| < 0.02 := by
      rw [abs_of_pos (by norm_num : (0:ℚ) < 0.02)]
      norm_num
    rw [if_neg h1]

theorem C3_witness :
    colorDiff 0.0199 = "green" ∧ colorDiff 0.02 = "red" ∧
      colorDiff (-0.05) = colorDiff 0.05 ∧
      colorDiff 0.01 = "green" ∧ colorDiff 0.05 = "red" :=
  ⟨(C3_colorDiff_thresholds 0).2.2.2.1,
    (C3_colorDiff_thresholds 0).2.2.2.2,
    (C3_colorDiff_thresholds 0.05).2.2.1,
    (C3_colorDiff_thresholds 0.01).1 (by rw [abs_of_pos] <;> norm_num),
    (C3_colorDiff_thresholds 0.05).2.1 (by rw [abs_of_pos] <;> norm_num)⟩

/-! Concrete fixtures for the scenario claims. -/

/-- Oracle fixture used by the concrete scenarios. -/
def oracleA : Oracle :=
  { assetPair := "ETH/USD", wrapperAddress := "0xA", pythFeedId := "feedA" }

/-- Hermes fetch fixture: every feed id succeeds with a single parsed
entry of significand "100" and exponent 0, a reference price of 100. -/
def fetchHundred : String → Option (List ParsedPriceEntry) :=
  fun _ => some [{ price := some ("100"), expo := some 0 }]

/-- Hermes fetch fixture: every request throws. -/
def fetchFail : String → Option (List ParsedPriceEntry) :=
  fun _ => none

/-- Chain-read fixture: the read at address "0xA" (the address of
`oracleA`) throws; every other address succeeds. -/
def readChainFailA : String → Option LatestRoundData :=
  fun a =>
    if a = "0xA" then none
    else some { roundId := 1, answer := 250000000000, startedAt := 0,
                updatedAt := 1000, answeredInRound := 1 }

/-- Chain-read fixture: every read throws. -/
def readChainFail : String → Option LatestRoundData :=
  fun _ => none

/-- Chain-read fixture: every read succeeds with raw answer
250000000000 (price 2500 after the 8-decimal scaling) and updatedAt
900. -/
def readChain2500 : String → Option LatestRoundData :=
  fun _ => some { roundId := 1, answer := 250000000000, startedAt := 0,
                  updatedAt := 900, answeredInRound := 1 }

theorem jsNumber_100 : jsNumber ("100") = some 100 := by
  have h1 : parseUnsigned (("100").toList) = some (100, 0, 0) := by decide
  rw [show jsNumber ("100") = (parseUnsigned (("100").toList)).map decValue
    from rfl, h1]
  simp [decValue]

theorem freshPrice_100 : freshPrice (some ("100")) 0 = some 100 := by
  show (jsNumber ("100")).map (fun q => q * (10 : ℚ) ^ (0 : ℤ)) = some 100
  rw [jsNumber_100]
  simp

/-- C4 counterexample: with the reference fetch succeeding with price
100 for every feed and the on-chain read for `oracleA` failing, the row
for `oracleA` carries `freshPrice = 0` and not the fetched reference
price 100: the catch branch of the on-chain loop discards the
successful reference fetch. -/
theorem C4_counterexample :
    hermesEntry fetchHundred oracleA.pythFeedId = some 100 ∧
      loadData [oracleA] fetchHundred readChainFailA =
        [{ oracle := oracleA, lastOnChainPrice := 0, freshPrice := some 0,
           lastUpdateTime := 0, isUpdating := false }] ∧
      (some (100 : ℚ)) ≠ (some (0 : ℚ)) := by
  refine ⟨?_, rfl, by norm_num⟩
  show freshPrice (some ("100")) 0 = some 100
  exact freshPrice_100

/-- C4 amended: when the on-chain read for one feed fails, that feed's
row is the all-zero sentinel row — price 0 and updatedAt 0, and also
referencePrice 0, the successfully fetched reference price being
discarded — while the row of every feed at a different wrapper address
does not depend on what the chain read does at the failed feed's
address. -/
theorem C4_amended_chain_failure (oracles : List Oracle)
    (fetch : String → Option (List ParsedPriceEntry))
    (c1 c2 : String → Option LatestRoundData) (i : ℕ) (o : Oracle)
    (ho : oracles[i]? = some o) (hfail : c1 o.wrapperAddress = none) :
    (loadData oracles fetch c1)[i]? =
        some { oracle := o, lastOnChainPrice := 0, freshPrice := some 0,
               lastUpdateTime := 0, isUpdating := false } ∧
      ∀ (j : ℕ) (oj : Oracle), oracles[j]? = some oj →
        oj.wrapperAddress ≠ o.wrapperAddress →
        (∀ a, a ≠ o.wrapperAddress → c1 a = c2 a) →
        (loadData oracles fetch c1)[j]? = (loadData oracles fetch c2)[j]? := by
  constructor
  · rw [loadData_getElem?, ho]
    show some (buildRow (buildHermesMap fetch oracles) c1 o) = _
    unfold buildRow
    rw [hfail]
  · intro j oj hj hne hagree
    rw [loadData_getElem?, loadData_getElem?, hj]
    show some (buildRow (buildHermesMap fetch oracles) c1 oj) =
      some (buildRow (buildHermesMap fetch oracles) c2 oj)
    unfold buildRow
    rw [hagree oj.wrapperAddress hne]

theorem C4_witness :
    (loadData [oracleA] fetchHundred readChainFailA)[0]? =
      some { oracle := oracleA, lastOnChainPrice := 0, freshPrice := some 0,
             lastUpdateTime := 0, isUpdating := false } :=
  (C4_amended_chain_failure [oracleA] fetchHundred readChainFailA
    readChainFailA 0 oracleA rfl rfl).1

theorem buildRow_some (hm : String → Option (Option ℚ))
    (readChain : String → Option LatestRoundData) (o : Oracle)
    (r : LatestRoundData) (h : readChain o.wrapperAddress = some r) :
    buildRow hm readChain o =
      { oracle := o
        lastOnChainPrice := (r.answer : ℚ) / 10 ^ 8
        freshPrice := (hm o.pythFeedId).getD (some 0)
        lastUpdateTime := r.updatedAt
        isUpdating := false } := by
  unfold buildRow
  rw [h]

theorem buildRow_none (hm : String → Option (Option ℚ))
    (readChain : String → Option LatestRoundData) (o : Oracle)
    (h : readChain o.wrapperAddress = none) :
    buildRow hm readChain o =
      { oracle := o
        lastOnChainPrice := 0
        freshPrice := some 0
        lastUpdateTime := 0
        isUpdating := false } := by
  unfold buildRow
  rw [h]

/-- C5: `freshPrice` returns significand times 10 to the exponent for a
well-formed significand and returns 0 when the significand is absent
(the `?? "0"` default supplies the string "0"); but a present malformed
significand string such as "abc" is converted to NaN by `Number` and
yields NaN (modelled `none`), not the 0 the specification requires, so
the invariant that the reference price is always finite is violated. -/
theorem C5_freshPrice_malformed :
    freshPrice none 0 = some 0 ∧
      freshPrice (some ("25010000000")) (-7) = some 2501 ∧
      freshPrice (some ("abc")) 0 = none ∧
      freshPrice (some ("abc")) 0 ≠ some 0 := by
  have habc : freshPrice (some ("abc")) 0 = none := by decide
  refine ⟨?_, ?_, habc, ?_⟩
  · show (jsNumber ("0")).map (fun q => q * (10 : ℚ) ^ (0 : ℤ)) = some 0
    have h1 : parseUnsigned (("0").toList) = some (0, 0, 0) := by decide
    rw [show jsNumber ("0") = (parseUnsigned (("0").toList)).map decValue
      from rfl, h1]
    simp [decValue]
  · show (jsNumber ("25010000000")).map (fun q => q * (10 : ℚ) ^ (-7 : ℤ)) =
      some 2501
    have h1 : parseUnsigned (("25010000000").toList) =
        some (25010000000, 0, 0) := by decide
    rw [show jsNumber ("25010000000") =
      (parseUnsigned (("25010000000").toList)).map decValue from rfl, h1]
    simp only [Option.map_some', Option.some.injEq, decValue]
    norm_num
  · rw [habc]
    exact fun h => Option.noConfusion h

/-- C6: `loadData` produces exactly one row per oracle descriptor, in
the order of the input descriptor list: projecting each produced row to
its descriptor recovers the input list itself, for every fetch and
chain-read outcome. -/
theorem C6_loadData_order (oracles : List Oracle)
    (fetch : String → Option (List ParsedPriceEntry))
    (readChain : String → Option LatestRoundData) :
    (loadData oracles fetch readChain).length = oracles.length ∧
      (loadData oracles fetch readChain).map OracleRow.oracle = oracles := by
  constructor
  · simp [loadData]
  · rw [loadData, List.map_map]
    have h : (OracleRow.oracle ∘
        buildRow (buildHermesMap fetch oracles) readChain) = id :=
      funext (fun o => buildRow_oracle _ _ o)
    rw [h, List.map_id]

/-- C7: when the reference fetch for one feed fails while its chain read
succeeds with raw answer 250000000000 (on-chain price 2500 after the
8-decimal scaling), `loadData` still returns one row per feed, the
failed feed's row has reference price 0 and on-chain price 2500, its
divergence ratio is (0 - 2500) / 2500 = -1 and is coloured "red"
(DIVERGENT), and the row of every feed whose chain read succeeds
carries the reference value of its own fetch. -/
theorem C7_reference_failure_isolation (oracles : List Oracle)
    (fetch : String → Option (List ParsedPriceEntry))
    (readChain : String → Option LatestRoundData) (i : ℕ) (o : Oracle)
    (r : LatestRoundData) (ho : oracles[i]? = some o)
    (hfetch : fetch o.pythFeedId = none)
    (hread : readChain o.wrapperAddress = some r)
    (hans : r.answer = 250000000000) :
    (loadData oracles fetch readChain).length = oracles.length ∧
      (loadData oracles fetch readChain)[i]? =
        some { oracle := o, lastOnChainPrice := 2500, freshPrice := some 0,
               lastUpdateTime := r.updatedAt, isUpdating := false } ∧
      diffRatio 2500 (some 0) = some (-1) ∧
      colorDiff (-1) = "red" ∧
      ∀ (j : ℕ) (oj : Oracle) (rj : LatestRoundData), oracles[j]? = some oj →
        readChain oj.wrapperAddress = some rj →
        (loadData oracles fetch readChain)[j]? =
          some { oracle := oj
                 lastOnChainPrice := (rj.answer : ℚ) / 10 ^ 8
                 freshPrice := hermesEntry fetch oj.pythFeedId
                 lastUpdateTime := rj.updatedAt
                 isUpdating := false } := by
  have hent : hermesEntry fetch o.pythFeedId = some 0 := by
    unfold hermesEntry
    rw [hfetch]
  refine ⟨by simp [loadData], ?_, ?_, ?_, ?_⟩
  · rw [loadData_getElem?, ho, Option.map_some',
      buildRow_some _ _ _ _ hread,
      buildHermesMap_mem fetch oracles o (List.getElem?_mem ho), hent, hans]
    simp only [Option.getD_some, Option.some.injEq, OracleRow.mk.injEq]
    norm_num
  · unfold diffRatio
    rw [if_neg (by norm_num : ¬ (2500 : ℚ) = 0)]
    simp only [Option.map_some', Option.some.injEq]
    norm_num
  · unfold colorDiff
    rw [if_neg]
    rw [abs_neg, abs_one]
    norm_num
  · intro j oj rj hj hrj
    rw [loadData_getElem?, hj, Option.map_some',
      buildRow_some _ _ _ _ hrj,
      buildHermesMap_mem fetch oracles oj (List.getElem?_mem hj)]
    rw [Option.getD_some]

theorem C7_witness :
    (loadData [oracleA] fetchFail readChain2500)[0]? =
        some { oracle := oracleA, lastOnChainPrice := 2500,
               freshPrice := some 0, lastUpdateTime := 900,
               isUpdating := false } ∧
      diffRatio 2500 (some 0) = some (-1) ∧ colorDiff (-1) = "red" :=
  ⟨(C7_reference_failure_isolation [oracleA] fetchFail readChain2500 0 oracleA
      { roundId := 1, answer := 250000000000, startedAt := 0,
        updatedAt := 900, answeredInRound := 1 } rfl rfl rfl rfl).2.1,
    (C7_reference_failure_isolation [oracleA] fetchFail readChain2500 0 oracleA
      { roundId := 1, answer := 250000000000, startedAt := 0,
        updatedAt := 900, answeredInRound := 1 } rfl rfl rfl rfl).2.2.1,
    (C7_reference_failure_isolation [oracleA] fetchFail readChain2500 0 oracleA
      { roundId := 1, answer := 250000000000, startedAt := 0,
        updatedAt := 900, answeredInRound := 1 } rfl rfl rfl rfl).2.2.2.1⟩

/-- C8 counterexample: at on-chain price -1 (nonzero) and reference
price 1 the reference price is higher than the on-chain price, yet the
divergence ratio (1 - (-1)) / (-1) = -2 is negative, so the claimed
sign correspondence fails for negative on-chain prices. -/
theorem C8_counterexample :
    diffRatio (-1) (some 1) = some (-2) ∧ ((-1 : ℚ) < 1) ∧
      ¬ (0 < (-2 : ℚ)) := by
  refine ⟨?_, by norm_num, by norm_num⟩
  unfold diffRatio
  rw [if_neg (by norm_num : ¬ (-1 : ℚ) = 0)]
  simp only [Option.map_some', Option.some.injEq]
  norm_num

/-- C8 amended: for every positive on-chain price the divergence ratio
is positive exactly when the reference price is higher than the
on-chain price and negative exactly when it is lower; for negative
on-chain prices the sign correspondence claimed for all nonzero prices
fails (see the counterexample). -/
theorem C8_amended_sign (last ref : ℚ) (h : 0 < last) :
    diffRatio last (some ref) = some ((ref - last) / last) ∧
      (0 < (ref - last) / last ↔ last < ref) ∧
      ((ref - last) / last < 0 ↔ ref < last) := by
  refine ⟨?_, ?_, ?_⟩
  · unfold diffRatio
    rw [if_neg h.ne']
    rfl
  · rw [lt_div_iff₀ h, zero_mul, sub_pos]
  · rw [div_lt_iff₀ h, zero_mul, sub_neg]

theorem C8_witness :
    diffRatio 2500 (some 2501) = some ((2501 - 2500) / 2500) ∧
      (0 < ((2501 : ℚ) - 2500) / 2500 ↔ (2500 : ℚ) < 2501) ∧
      (((2499 : ℚ) - 2500) / 2500 < 0 ↔ (2499 : ℚ) < 2500) :=
  ⟨(C8_amended_sign 2500 2501 (by norm_num)).1,
    (C8_amended_sign 2500 2501 (by norm_num)).2.1,
    (C8_amended_sign 2500 2499 (by norm_num)).2.2⟩

/-- C9 counterexample: a feed whose chain read and reference fetch both
fail gets the sentinel row with price 0, reference 0 and updatedAt 0,
but at clock time 1740000000 s the rendered minutes-since-update is
1740000000 / 60 = 29000000, not the 0.0 min the claim states (the row
is indeed STALE "red" and ALIGNED "green"). -/
theorem C9_counterexample :
    loadData [oracleA] fetchFail readChainFail =
        [{ oracle := oracleA, lastOnChainPrice := 0, freshPrice := some 0,
           lastUpdateTime := 0, isUpdating := false }] ∧
      minsSince 1740000000 0 = 29000000 ∧ ((29000000 : ℚ) ≠ 0) ∧
      colorTime (minsSince 1740000000 0) = "red" ∧
      diffRatio 0 (some 0) = some 0 ∧ colorDiff 0 = "green" := by
  have hmins : minsSince 1740000000 0 = 29000000 := by
    unfold minsSince
    norm_num
  refine ⟨rfl, hmins, by norm_num, ?_, rfl, ?_⟩
  · rw [hmins]
    unfold colorTime
    rw [if_neg (by norm_num), if_neg (by norm_num)]
  · unfold colorDiff
    rw [if_pos]
    rw [abs_zero]
    norm_num

/-- C9 amended: a feed whose data could not be fetched gets the
all-zero sentinel row, displaying price 0 and classified ALIGNED
("green") for divergence; its minutes-since-update is nowSec / 60 — the
full time elapsed since the Unix epoch, not 0.0 — and it is classified
STALE ("red") whenever the clock reads at least 1800 seconds. -/
theorem C9_amended_sentinel_display (oracles : List Oracle)
    (fetch : String → Option (List ParsedPriceEntry))
    (readChain : String → Option LatestRoundData) (i : ℕ) (o : Oracle)
    (now : ℤ) (ho : oracles[i]? = some o)
    (hread : readChain o.wrapperAddress = none)
    (_hfetch : fetch o.pythFeedId = none) :
    (loadData oracles fetch readChain)[i]? =
        some { oracle := o, lastOnChainPrice := 0, freshPrice := some 0,
               lastUpdateTime := 0, isUpdating := false } ∧
      diffRatio 0 (some 0) = some 0 ∧ colorDiff 0 = "green" ∧
      minsSince now 0 = (now : ℚ) / 60 ∧
      (1800 ≤ now → colorTime (minsSince now 0) = "red") := by
  have hmins : minsSince now 0 = (now : ℚ) / 60 := by
    unfold minsSince
    norm_num
  refine ⟨?_, rfl, ?_, hmins, ?_⟩
  · rw [loadData_getElem?, ho, Option.map_some', buildRow_none _ _ _ hread]
  · unfold colorDiff
    rw [if_pos]
    rw [abs_zero]
    norm_num
  · intro hnow
    have h60 : (30 : ℚ) ≤ (now : ℚ) / 60 := by
      rw [le_div_iff₀ (by norm_num : (0 : ℚ) < 60)]
      calc (30 : ℚ) * 60 = ((1800 : ℤ) : ℚ) := by norm_num
        _ ≤ (now : ℚ) := by exact_mod_cast hnow
    rw [hmins]
    unfold colorTime
    rw [if_neg (not_lt.mpr (le_trans (by norm_num) h60)),
      if_neg (not_lt.mpr h60)]

theorem C9_witness :
    (loadData [oracleA] fetchFail readChainFail)[0]? =
        some { oracle := oracleA, lastOnChainPrice := 0, freshPrice := some 0,
               lastUpdateTime := 0, isUpdating := false } ∧
      colorTime (minsSince 1800 0) = "red" :=
  ⟨(C9_amended_sentinel_display [oracleA] fetchFail readChainFail 0 oracleA
      1800 rfl rfl rfl).1,
    (C9_amended_sentinel_display [oracleA] fetchFail readChainFail 0 oracleA
      1800 rfl rfl rfl).2.2.2.2 (by norm_num)⟩

/-- C10: every row produced by a refresh evaluation (`loadData`) has its
update-in-flight flag `isUpdating` equal to false, both on success and
on failure of the feed's fetches: the evaluation never marks a row as
update-in-flight. -/
theorem C10_isUpdating_false (oracles : List Oracle)
    (fetch : String → Option (List ParsedPriceEntry))
    (readChain : String → Option LatestRoundData) (row : OracleRow)
    (hrow : row ∈ loadData oracles fetch readChain) :
    row.isUpdating = false := by
  rw [loadData] at hrow
  rcases List.mem_map.mp hrow with ⟨o, _, ho⟩
  rw [← ho]
  exact buildRow_isUpdating _ _ o

theorem C10_witness :
    OracleRow.isUpdating
        { oracle := oracleA, lastOnChainPrice := 0, freshPrice := some 0,
          lastUpdateTime := 0, isUpdating := false } = false :=
  C10_isUpdating_false [oracleA] fetchFail readChainFail _
    (List.mem_singleton.mpr rfl)
